import Mathlib

/-!
Verification of the btrfs sysfs statistics reader (package `btrfs`,
file `btrfs/get.go`) against its natural-language specification.

The Go code is shallowly embedded: the OS filesystem interface
(`os.Stat`, `ioutil.ReadFile`, `ioutil.ReadDir`) is modelled by an
abstract record of functions `SimFS` from full path strings to
`Except`-results, the mutable `reader` struct is modelled by explicit
state passing of a `Reader` value, Go `uint64` is modelled by `Nat`
with explicit `% 2 ^ 64` where an overflow is possible, Go `float64`
(used only for the redundancy ratio) is modelled by `ℚ` — every ratio
the code can produce at the points the claims mention is an exact
binary fraction, so the rational model agrees with IEEE `float64`
there — and Go's `(value, error)` pairs are explicit products.
-/

/-- Error produced by an OS call in the model: `notFound` stands for an
error satisfying Go's `os.IsNotExist`, the other constructors for any
other I/O failure (permission denied, low-level read error). -/
inductive FsError where
  | notFound
  | permissionDenied
  | ioError
deriving DecidableEq

/-- The values the Go `reader.err` field (a Go `error`) can take in this
package: an OS error, or a `strconv.ParseUint` failure carrying the
offending string. -/
inductive RError where
  | fsErr (e : FsError)
  | parseErr (s : String)
deriving DecidableEq

/-- Abstract filesystem: the three OS entry points the package uses,
as functions from a full path. `readDirRaw` yields directory entries in
unspecified on-disk order; `ioutil.ReadDir`'s sorting is applied on top
of it in `listFiles`. -/
structure SimFS where
  stat : String → Except FsError Unit
  readF : String → Except FsError String
  readDirRaw : String → Except FsError (List String)

/-- Go `path.Join(a, b)` for the clean relative components this package
joins (no `.`/`..`/trailing slashes occur), which is plain concatenation
with a separator. -/
def pathJoin (a b : String) : String := a ++ "/" ++ b

/-- Go `strconv.ParseUint(s, 10, 64)`: first component the returned
value, second the returned error (`none` = nil). An empty or non-digit
string is a syntax error returning 0; a digit string above
`2 ^ 64 - 1` is a range error returning the maximum. -/
def parseUint64 (s : String) : Nat × Option RError :=
  if s.length = 0 then (0, some (.parseErr s))
  else if s.toList.all (fun c => c.isDigit) then
    let v := s.toList.foldl (fun a c => a * 10 + (c.toNat - 48)) 0
    if v ≤ 2 ^ 64 - 1 then (v, none)
    else (2 ^ 64 - 1, some (.parseErr s))
  else (0, some (.parseErr s))

/-- Go `strings.TrimSpace`: drop leading and trailing whitespace.
Implemented structurally over the character list so that the kernel can
evaluate it (`String.trim` is defined through well-founded recursion);
whitespace is `Char.isWhitespace` (space, tab, CR, LF), which covers
every character occurring in the modelled files. -/
def trimSpace (s : String) : String :=
  ⟨((s.data.dropWhile Char.isWhitespace).reverse.dropWhile Char.isWhitespace).reverse⟩

/-- The content of a successful read, `""` for a failed one (Go's
`ReadFile` returns a nil byte slice on error, whose string is empty). -/
def contentOf (x : Except FsError String) : String :=
  match x with
  | .ok c => c
  | .error _ => ""

/-- Whether an `Except` result is `ok`. -/
def isOkB (x : Except FsError Unit) : Bool :=
  match x with
  | .ok _ => true
  | .error _ => false

/-- Lexicographic comparison of character lists by code point, the
order Go's `sort.Slice(list, …Name() < …Name())` in `ioutil.ReadDir`
sorts by (byte-wise on Go strings; identical to code-point order on the
ASCII names occurring in sysfs). Structural, so the kernel can
evaluate it, unlike core's iterator-based `String.ltb`. -/
def lexLe : List Char → List Char → Bool
  | [], _ => true
  | _ :: _, [] => false
  | c :: cs, d :: ds =>
    if c.toNat < d.toNat then true
    else if d.toNat < c.toNat then false
    else lexLe cs ds

/-- Ascending name order used by `ioutil.ReadDir`. -/
def nameLe (a b : String) : Prop := lexLe a.data b.data = true

instance : DecidableRel nameLe := fun a b => by
  unfold nameLe; infer_instance

/-- Go struct `reader`: the root path, the latched error (`none` = nil)
and the device count. -/
structure Reader where
  path : String
  err : Option RError
  devCount : Nat
deriving DecidableEq

/-- Go `Device`: size in bytes. -/
structure Device where
  Size : Nat
deriving DecidableEq

/-- Go `LayoutUsage`: byte counters and the redundancy ratio (Go
`float64`, modelled as `ℚ`). -/
structure LayoutUsage where
  TotalBytes : Nat
  UsedBytes : Nat
  Ratio : ℚ
deriving DecidableEq

/-- Go `AllocationStats`: ten scalar counters and one optional
`*LayoutUsage` pointer per known layout name (`none` = nil pointer). -/
structure AllocationStats where
  MayUseBytes : Nat
  PinnedBytes : Nat
  ReadOnlyBytes : Nat
  ReservedBytes : Nat
  UsedBytes : Nat
  DiskUsedBytes : Nat
  DiskTotalBytes : Nat
  Flags : Nat
  TotalBytes : Nat
  TotalPinnedBytes : Nat
  Single : Option LayoutUsage
  Dup : Option LayoutUsage
  Raid0 : Option LayoutUsage
  Raid1 : Option LayoutUsage
  Raid5 : Option LayoutUsage
  Raid6 : Option LayoutUsage
  Raid10 : Option LayoutUsage
deriving DecidableEq

/-- Go `Allocation`: global reservation scalars and the three optional
allocation-class records (`none` = nil `*AllocationStats`). -/
structure Allocation where
  GlobalRsvReserved : Nat
  GlobalRsvSize : Nat
  Data : Option AllocationStats
  Metadata : Option AllocationStats
  System : Option AllocationStats
deriving DecidableEq

/-- Go `Stats`: the per-volume result. The UUID is filled in by the
caller `Stats()`, so `readFilesystemStats` leaves it at the zero value.
The Go `map[string]*Device` is modelled as an association list built by
`devInsert` (lookup and length agree with the Go map). -/
structure Stats where
  UUID : String
  Label : String
  Features : List String
  CloneAlignment : Nat
  NodeSize : Nat
  SectorSize : Nat
  Devices : List (String × Device)
  Allocation : Allocation
deriving DecidableEq

/-- Go `reader.exists`: `os.Stat` the joined path; nil error means true,
an `os.IsNotExist` error means false, any other error is latched on the
reader and false is returned. Note it does not consult an already
latched `r.err` and overwrites it on a stat failure. -/
def existsP (fs : SimFS) (r : Reader) (p : String) : Bool × Reader :=
  match fs.stat (pathJoin r.path p) with
  | .ok _ => (true, r)
  | .error .notFound => (false, r)
  | .error e => (false, { r with err := some (.fsErr e) })

/-- Go `reader.readFile`: read the joined path, latch any error
(including not-found), return the whitespace-trimmed content (empty on
error). It does not consult an already latched `r.err`. -/
def readFile (fs : SimFS) (r : Reader) (n : String) : String × Reader :=
  match fs.readF (pathJoin r.path n) with
  | .ok b => (trimSpace b, r)
  | .error e => ("", { r with err := some (.fsErr e) })

/-- Go `reader.readOptionalValue`: read the file, return 0 if that
latched an error, otherwise parse, ignoring any parse error (this
helper is unused by the rest of the package). -/
def readOptionalValue (fs : SimFS) (r : Reader) (n : String) : Nat × Reader :=
  let sr := readFile fs r n
  if sr.2.err.isSome then (0, sr.2)
  else ((parseUint64 sr.1).1, sr.2)

/-- Go `reader.readValue`: no-op returning 0 when an error is already
latched; otherwise read the file, return 0 if that latched an error,
otherwise parse and assign the parse result's error (possibly nil) to
`r.err` and return the parse result's value. -/
def readValue (fs : SimFS) (r : Reader) (n : String) : Nat × Reader :=
  if r.err.isSome then (0, r)
  else
    let sr := readFile fs r n
    if sr.2.err.isSome then (0, sr.2)
    else
      let pv := parseUint64 sr.1
      (pv.1, { sr.2 with err := pv.2 })

/-- Go `reader.listFiles`: `ioutil.ReadDir` the joined path; on failure
latch the error and return the empty list (Go nil slice), on success
return the entry names, which `ioutil.ReadDir` yields sorted ascending
by name (modelled by `List.insertionSort` over `nameLe`; any sorting
algorithm yields the same list, names being pairwise distinct). It
does not consult an already latched `r.err`. -/
def listFiles (fs : SimFS) (r : Reader) (p : String) : List String × Reader :=
  match fs.readDirRaw (pathJoin r.path p) with
  | .ok names => (List.insertionSort nameLe names, r)
  | .error e => ([], { r with err := some (.fsErr e) })

/-- Go map assignment `m[k] = v` on the association-list model: replace
the entry with key `k` if present, else append. -/
def devInsert : List (String × Device) → String → Device → List (String × Device)
  | [], k, v => [(k, v)]
  | kv :: t, k, v => if kv.1 = k then (k, v) :: t else kv :: devInsert t k v

/-- Go map lookup `m[k]` on the association-list model. -/
def lookupDev : List (String × Device) → String → Option Device
  | [], _ => none
  | kv :: t, k => if kv.1 = k then some kv.2 else lookupDev t k

/-- Go `reader.calcRatio`: table lookup on the layout name, using the
reader's device count for the raid5/raid6 formulas. Go computes these
in `float64`; the model uses `ℚ` (exact wherever the claims evaluate
it; `ℚ` division by zero yields 0 where `float64` would yield ±Inf,
a degenerate case outside every claim). -/
def calcRatio (r : Reader) (p : String) : ℚ :=
  match p with
  | "single" | "raid0" => 1
  | "dup" | "raid1" | "raid10" => 2
  | "raid5" => (r.devCount : ℚ) / ((r.devCount : ℚ) - 1)
  | "raid6" => (r.devCount : ℚ) / ((r.devCount : ℚ) - 2)
  | _ => 0

/-- Go `reader.readLayout`: probe the layout subdirectory with
`exists`; if it is absent return nil, otherwise read the two byte
counters and compute the ratio. -/
def readLayout (fs : SimFS) (r : Reader) (p : String) : Option LayoutUsage × Reader :=
  let ex := existsP fs r p
  if ex.1 then
    let tb := readValue fs ex.2 (pathJoin p "total_bytes")
    let ub := readValue fs tb.2 (pathJoin p "used_bytes")
    (some ⟨tb.1, ub.1, calcRatio ub.2 p⟩, ub.2)
  else (none, ex.2)

/-- Go `reader.readDeviceInfo`: nil when an error is latched; otherwise
list the `devices` directory and, per entry, read its `size` scalar and
record `512 * size` bytes (`uint64` multiplication, hence the
`% 2 ^ 64`). The unused parameter `d` mirrors the Go signature. -/
def readDeviceInfo (fs : SimFS) (r : Reader) (d : String) : List (String × Device) × Reader :=
  if r.err.isSome then ([], r)
  else
    let ls := listFiles fs r "devices"
    ls.1.foldl
      (fun acc n =>
        let sz := readValue fs acc.2 ("devices/" ++ n ++ "/size")
        (devInsert acc.1 n ⟨512 * sz.1 % 2 ^ 64⟩, sz.2))
      ([], ls.2)

/-- Go `reader.readAllocationStats`: nil when an error is latched;
otherwise run a fresh sub-reader rooted at the class directory through
the ten scalar counters and the seven known layout probes, in source
order, and pass the sub-reader's final error back to the caller. -/
def readAllocationStats (fs : SimFS) (r : Reader) (d : String) :
    Option AllocationStats × Reader :=
  if r.err.isSome then (none, r)
  else
    let sr0 : Reader := { path := pathJoin r.path d, err := none, devCount := r.devCount }
    let v1 := readValue fs sr0 "bytes_may_use"
    let v2 := readValue fs v1.2 "bytes_pinned"
    let v3 := readValue fs v2.2 "bytes_readonly"
    let v4 := readValue fs v3.2 "bytes_reserved"
    let v5 := readValue fs v4.2 "bytes_used"
    let v6 := readValue fs v5.2 "disk_used"
    let v7 := readValue fs v6.2 "disk_total"
    let v8 := readValue fs v7.2 "flags"
    let v9 := readValue fs v8.2 "total_bytes"
    let v10 := readValue fs v9.2 "total_bytes_pinned"
    let l1 := readLayout fs v10.2 "single"
    let l2 := readLayout fs l1.2 "dup"
    let l3 := readLayout fs l2.2 "raid0"
    let l4 := readLayout fs l3.2 "raid1"
    let l5 := readLayout fs l4.2 "raid5"
    let l6 := readLayout fs l5.2 "raid6"
    let l7 := readLayout fs l6.2 "raid10"
    (some ⟨v1.1, v2.1, v3.1, v4.1, v5.1, v6.1, v7.1, v8.1, v9.1, v10.1,
      l1.1, l2.1, l3.1, l4.1, l5.1, l6.1, l7.1⟩,
     { r with err := l7.2.err })

/-- Go `reader.readFilesystemStats`: read the device map first, store
its length as the device count, then build the `Stats` literal in
source order (label, features, three scalars, the devices map, and the
allocation record with its three classes). -/
def readFilesystemStats (fs : SimFS) (r : Reader) : Stats × Reader :=
  let dev := readDeviceInfo fs r "devices"
  let r1 : Reader := { dev.2 with devCount := dev.1.length }
  let lab := readFile fs r1 "label"
  let feat := listFiles fs lab.2 "features"
  let ca := readValue fs feat.2 "clone_alignment"
  let ns := readValue fs ca.2 "nodesize"
  let ss := readValue fs ns.2 "sectorsize"
  let grr := readValue fs ss.2 "allocation/global_rsv_reserved"
  let grs := readValue fs grr.2 "allocation/global_rsv_size"
  let da := readAllocationStats fs grs.2 "allocation/data"
  let md := readAllocationStats fs da.2 "allocation/metadata"
  let sys := readAllocationStats fs md.2 "allocation/system"
  (⟨"", lab.1, feat.1, ca.1, ns.1, ss.1, dev.1,
    ⟨grr.1, grs.1, da.1, md.1, sys.1⟩⟩, sys.2)

/-- Go `GetStats`: run `readFilesystemStats` on a fresh reader and
return the (always non-nil, modelled `some`) stats pointer together
with the reader's final error. -/
def GetStats (fs : SimFS) (uuidPath : String) : Option Stats × Option RError :=
  let res := readFilesystemStats fs { path := uuidPath, err := none, devCount := 0 }
  (some res.1, res.2.err)

/-- Test-harness filesystem: a finite table of files (path → content),
directories (path → raw entry list) and paths whose access is denied
with a permission error; every other path does not exist. -/
def tableFS (files : List (String × String)) (dirs : List (String × List String))
    (denied : List String) : SimFS where
  stat := fun p =>
    if p ∈ denied then .error .permissionDenied
    else if (files.lookup p).isSome ∨ (dirs.lookup p).isSome then .ok ()
    else .error .notFound
  readF := fun p =>
    if p ∈ denied then .error .permissionDenied
    else match files.lookup p with
      | some c => .ok c
      | none => .error .notFound
  readDirRaw := fun p =>
    if p ∈ denied then .error .permissionDenied
    else match dirs.lookup p with
      | some l => .ok l
      | none => .error .notFound

/-- Files of a complete, healthy volume fixture (every scalar the
reader touches is present), mirroring the shape of the repository's
test fixture: label `fixture`, two devices, four features, one layout
per allocation class. -/
def goodFiles : List (String × String) :=
  [("root/label", "fixture\n"),
   ("root/clone_alignment", "4096\n"),
   ("root/nodesize", "16384\n"),
   ("root/sectorsize", "4096\n"),
   ("root/allocation/global_rsv_reserved", "0\n"),
   ("root/allocation/global_rsv_size", "16777216\n"),
   ("root/devices/sda/size", "4194304\n"),
   ("root/devices/sdb/size", "2097152\n"),
   ("root/allocation/data/bytes_may_use", "0\n"),
   ("root/allocation/data/bytes_pinned", "0\n"),
   ("root/allocation/data/bytes_readonly", "0\n"),
   ("root/allocation/data/bytes_reserved", "0\n"),
   ("root/allocation/data/bytes_used", "808189952\n"),
   ("root/allocation/data/disk_used", "808189952\n"),
   ("root/allocation/data/disk_total", "2147483648\n"),
   ("root/allocation/data/flags", "1\n"),
   ("root/allocation/data/total_bytes", "2147483648\n"),
   ("root/allocation/data/total_bytes_pinned", "0\n"),
   ("root/allocation/data/raid0/total_bytes", "2147483648\n"),
   ("root/allocation/data/raid0/used_bytes", "808189952\n"),
   ("root/allocation/metadata/bytes_may_use", "16777216\n"),
   ("root/allocation/metadata/bytes_pinned", "0\n"),
   ("root/allocation/metadata/bytes_readonly", "131072\n"),
   ("root/allocation/metadata/bytes_reserved", "0\n"),
   ("root/allocation/metadata/bytes_used", "933888\n"),
   ("root/allocation/metadata/disk_used", "1867776\n"),
   ("root/allocation/metadata/disk_total", "2147483648\n"),
   ("root/allocation/metadata/flags", "4\n"),
   ("root/allocation/metadata/total_bytes", "1073741824\n"),
   ("root/allocation/metadata/total_bytes_pinned", "0\n"),
   ("root/allocation/metadata/raid1/total_bytes", "1073741824\n"),
   ("root/allocation/metadata/raid1/used_bytes", "933888\n"),
   ("root/allocation/system/bytes_may_use", "0\n"),
   ("root/allocation/system/bytes_pinned", "0\n"),
   ("root/allocation/system/bytes_readonly", "0\n"),
   ("root/allocation/system/bytes_reserved", "0\n"),
   ("root/allocation/system/bytes_used", "16384\n"),
   ("root/allocation/system/disk_used", "32768\n"),
   ("root/allocation/system/disk_total", "16777216\n"),
   ("root/allocation/system/flags", "2\n"),
   ("root/allocation/system/total_bytes", "8388608\n"),
   ("root/allocation/system/total_bytes_pinned", "0\n"),
   ("root/allocation/system/raid1/total_bytes", "8388608\n"),
   ("root/allocation/system/raid1/used_bytes", "16384\n")]

/-- Directories of the healthy volume fixture; the `devices` raw order
is deliberately unsorted to exercise the `ReadDir` sort. -/
def goodDirs : List (String × List String) :=
  [("root/devices", ["sdb", "sda"]),
   ("root/features", ["extended_iref", "big_metadata", "skinny_metadata", "mixed_backref"]),
   ("root/allocation/data/raid0", ["total_bytes", "used_bytes"]),
   ("root/allocation/metadata/raid1", ["total_bytes", "used_bytes"]),
   ("root/allocation/system/raid1", ["total_bytes", "used_bytes"])]

/-- The healthy volume fixture. -/
def fsGood : SimFS := tableFS goodFiles goodDirs []

/-- The ratio `calcRatio` assigns to a layout name at a given device
count (spec-side wrapper: the Go method only reads `r.devCount`). -/
def calcRatioAt (p : String) (n : Nat) : ℚ :=
  calcRatio { path := "", err := none, devCount := n } p

/-- The number of entries device enumeration yields for a volume root
on a given filesystem, as observed on a fresh reader. -/
def devEnumCount (fs : SimFS) (p : String) : Nat :=
  (readDeviceInfo fs { path := p, err := none, devCount := 0 } "devices").1.length

/-- Every layout record present in an `AllocationStats` carries the
ratio computed from its own layout name at device count `n`. -/
def layoutsRatioEq (a : AllocationStats) (n : Nat) : Prop :=
  (∀ lu ∈ a.Single, lu.Ratio = calcRatioAt "single" n) ∧
  (∀ lu ∈ a.Dup, lu.Ratio = calcRatioAt "dup" n) ∧
  (∀ lu ∈ a.Raid0, lu.Ratio = calcRatioAt "raid0" n) ∧
  (∀ lu ∈ a.Raid1, lu.Ratio = calcRatioAt "raid1" n) ∧
  (∀ lu ∈ a.Raid5, lu.Ratio = calcRatioAt "raid5" n) ∧
  (∀ lu ∈ a.Raid6, lu.Ratio = calcRatioAt "raid6" n) ∧
  (∀ lu ∈ a.Raid10, lu.Ratio = calcRatioAt "raid10" n)

/-- Zero `AllocationStats`, used as the default of `Option.getD` in
closed witness statements. -/
def allocZero : AllocationStats :=
  ⟨0, 0, 0, 0, 0, 0, 0, 0, 0, 0, none, none, none, none, none, none, none⟩

/-- A reader whose (none) error field is rewritten to `none` is itself. -/
theorem reader_update_none {r : Reader} (h : r.err = none) :
    ({ r with err := none } : Reader) = r := by
  cases r with
  | mk p e d => cases h; rfl

theorem existsP_path (fs : SimFS) (r : Reader) (p : String) :
    (existsP fs r p).2.path = r.path := by
  unfold existsP
  cases fs.stat (pathJoin r.path p) with
  | ok u => rfl
  | error e => cases e <;> rfl

theorem existsP_devCount (fs : SimFS) (r : Reader) (p : String) :
    (existsP fs r p).2.devCount = r.devCount := by
  unfold existsP
  cases fs.stat (pathJoin r.path p) with
  | ok u => rfl
  | error e => cases e <;> rfl

theorem readFile_path (fs : SimFS) (r : Reader) (n : String) :
    (readFile fs r n).2.path = r.path := by
  unfold readFile
  cases fs.readF (pathJoin r.path n) with
  | ok b => rfl
  | error e => rfl

theorem readFile_devCount (fs : SimFS) (r : Reader) (n : String) :
    (readFile fs r n).2.devCount = r.devCount := by
  unfold readFile
  cases fs.readF (pathJoin r.path n) with
  | ok b => rfl
  | error e => rfl

theorem readValue_path (fs : SimFS) (r : Reader) (n : String) :
    (readValue fs r n).2.path = r.path := by
  unfold readValue
  split
  · rfl
  · dsimp only
    split
    · exact readFile_path fs r n
    · exact readFile_path fs r n

theorem readValue_devCount (fs : SimFS) (r : Reader) (n : String) :
    (readValue fs r n).2.devCount = r.devCount := by
  unfold readValue
  split
  · rfl
  · dsimp only
    split
    · exact readFile_devCount fs r n
    · exact readFile_devCount fs r n

theorem listFiles_path (fs : SimFS) (r : Reader) (p : String) :
    (listFiles fs r p).2.path = r.path := by
  unfold listFiles
  cases fs.readDirRaw (pathJoin r.path p) with
  | ok names => rfl
  | error e => rfl

theorem listFiles_devCount (fs : SimFS) (r : Reader) (p : String) :
    (listFiles fs r p).2.devCount = r.devCount := by
  unfold listFiles
  cases fs.readDirRaw (pathJoin r.path p) with
  | ok names => rfl
  | error e => rfl

theorem readLayout_path (fs : SimFS) (r : Reader) (p : String) :
    (readLayout fs r p).2.path = r.path := by
  unfold readLayout
  dsimp only
  split
  · rw [readValue_path, readValue_path, existsP_path]
  · exact existsP_path fs r p

theorem readLayout_devCount (fs : SimFS) (r : Reader) (p : String) :
    (readLayout fs r p).2.devCount = r.devCount := by
  unfold readLayout
  dsimp only
  split
  · rw [readValue_devCount, readValue_devCount, existsP_devCount]
  · exact existsP_devCount fs r p

theorem readAllocationStats_path (fs : SimFS) (r : Reader) (d : String) :
    (readAllocationStats fs r d).2.path = r.path := by
  unfold readAllocationStats
  split <;> rfl

theorem readAllocationStats_devCount (fs : SimFS) (r : Reader) (d : String) :
    (readAllocationStats fs r d).2.devCount = r.devCount := by
  unfold readAllocationStats
  split <;> rfl

/-- `calcRatio` reads only the device count of its reader. -/
theorem calcRatio_congr {r1 r2 : Reader} (h : r1.devCount = r2.devCount) (p : String) :
    calcRatio r1 p = calcRatio r2 p := by
  unfold calcRatio
  split <;> simp [h]

/-- Success case of `readValue`: with no latched error, a readable file
and cleanly parsing content, the parsed value is returned and the
reader is unchanged. -/
theorem readValue_ok {fs : SimFS} {r : Reader} {n c : String} (h : r.err = none)
    (hc : fs.readF (pathJoin r.path n) = .ok c)
    (hp : (parseUint64 (trimSpace c)).2 = none) :
    readValue fs r n = ((parseUint64 (trimSpace c)).1, r) := by
  have hu := reader_update_none h
  simp only [readValue, readFile, hc, h, Option.isSome_none, Bool.false_eq_true,
    if_false, hp, hu]

/-- Failure case of `readValue`: with no latched error and a failing
read (any OS error, not-found included), 0 is returned and the OS
error is latched. -/
theorem readValue_read_error {fs : SimFS} {r : Reader} {n : String} {e : FsError}
    (h : r.err = none) (hc : fs.readF (pathJoin r.path n) = .error e) :
    readValue fs r n = (0, { r with err := some (.fsErr e) }) := by
  simp only [readValue, readFile, hc, h, Option.isSome_none, Bool.false_eq_true,
    if_false, Option.isSome_some, if_true]

/-- Parse-failure case of `readValue`: with no latched error, a
readable file whose content does not parse, the parse result's value is
returned and the parse error is latched. -/
theorem readValue_parse_error {fs : SimFS} {r : Reader} {n c : String} {pe : RError}
    (h : r.err = none) (hc : fs.readF (pathJoin r.path n) = .ok c)
    (hp : (parseUint64 (trimSpace c)).2 = some pe) :
    readValue fs r n = ((parseUint64 (trimSpace c)).1, { r with err := some pe }) := by
  simp only [readValue, readFile, hc, h, Option.isSome_none, Bool.false_eq_true,
    if_false, hp]

/-- Scalar fixture for the value-reader claims: one well-formed numeric
file and one malformed file under root `r`; everything else is absent. -/
def fsScalar : SimFS :=
  tableFS [("r/good", "12345\n"), ("r/bad", "not-a-number")] [] []

/-- C1 counterexample: on the code as written, a missing scalar file
and a malformed scalar file both decode to 0 but DO record an error on
the reader (`readFile` latches the not-found error, and `readValue`
assigns the `ParseUint` error to `r.err`), contradicting the claim that
no error is recorded in those two cases. -/
theorem readValue_records_errors :
    (readValue fsScalar ⟨"r", none, 0⟩ "missing").1 = 0 ∧
    (readValue fsScalar ⟨"r", none, 0⟩ "missing").2.err = some (.fsErr .notFound) ∧
    (readValue fsScalar ⟨"r", none, 0⟩ "bad").1 = 0 ∧
    (readValue fsScalar ⟨"r", none, 0⟩ "bad").2.err = some (.parseErr "not-a-number") :=
  ⟨by decide, by decide, by decide, by decide⟩

/-- C1 (amended): applied to a single scalar file with no error
latched, the reader decodes `"12345\n"` to 12345 leaving the reader
unchanged; a missing file decodes to 0 with the not-found error latched
on the reader; and `"not-a-number"` decodes to 0 with a parse error
latched. Parsing is strict in `readValue` (only the unused
`readOptionalValue` ignores parse errors). -/
theorem readValue_scalar_cases (fs : SimFS) (r : Reader) (n : String) (h : r.err = none) :
    (fs.readF (pathJoin r.path n) = .ok "12345\n" → readValue fs r n = (12345, r)) ∧
    (fs.readF (pathJoin r.path n) = .error .notFound →
      readValue fs r n = (0, { r with err := some (.fsErr .notFound) })) ∧
    (fs.readF (pathJoin r.path n) = .ok "not-a-number" →
      readValue fs r n = (0, { r with err := some (.parseErr "not-a-number") })) := by
  refine ⟨fun hc => ?_, fun hc => readValue_read_error h hc, fun hc => ?_⟩
  · rw [readValue_ok h hc (by decide)]
    rw [show (parseUint64 (trimSpace "12345\n")).1 = 12345 from by decide]
  · rw [readValue_parse_error h hc
      (show (parseUint64 (trimSpace "not-a-number")).2 = some (.parseErr "not-a-number")
        from by decide)]
    rw [show (parseUint64 (trimSpace "not-a-number")).1 = 0 from by decide]

/-- Witness for C1's amended theorem at the scalar fixture. -/
theorem readValue_scalar_cases_witness :
    readValue fsScalar ⟨"r", none, 0⟩ "good" = (12345, ⟨"r", none, 0⟩) ∧
    readValue fsScalar ⟨"r", none, 0⟩ "missing" = (0, ⟨"r", some (.fsErr .notFound), 0⟩) ∧
    readValue fsScalar ⟨"r", none, 0⟩ "bad" = (0, ⟨"r", some (.parseErr "not-a-number"), 0⟩) :=
  ⟨(readValue_scalar_cases fsScalar ⟨"r", none, 0⟩ "good" rfl).1 rfl,
   (readValue_scalar_cases fsScalar ⟨"r", none, 0⟩ "missing" rfl).2.1 rfl,
   (readValue_scalar_cases fsScalar ⟨"r", none, 0⟩ "bad" rfl).2.2 rfl⟩

/-- C2: the ratio table of `calcRatio`: 1 for single and raid0, 2 for
dup, raid1 and raid10, n/(n-1) for raid5 (1.5 at n = 3), n/(n-2) for
raid6 (2 at n = 4), and 0 for every other layout name. -/
theorem calcRatio_table (r : Reader) :
    calcRatio r "single" = 1 ∧ calcRatio r "raid0" = 1 ∧
    calcRatio r "dup" = 2 ∧ calcRatio r "raid1" = 2 ∧ calcRatio r "raid10" = 2 ∧
    calcRatio r "raid5" = (r.devCount : ℚ) / ((r.devCount : ℚ) - 1) ∧
    (r.devCount = 3 → calcRatio r "raid5" = 3 / 2) ∧
    calcRatio r "raid6" = (r.devCount : ℚ) / ((r.devCount : ℚ) - 2) ∧
    (r.devCount = 4 → calcRatio r "raid6" = 2) ∧
    (∀ p : String,
      p ∉ (["single", "raid0", "dup", "raid1", "raid10", "raid5", "raid6"] : List String) →
      calcRatio r p = 0) := by
  refine ⟨rfl, rfl, rfl, rfl, rfl, rfl, fun h => ?_, rfl, fun h => ?_, fun p hp => ?_⟩
  · show (r.devCount : ℚ) / ((r.devCount : ℚ) - 1) = 3 / 2
    rw [h]; norm_num
  · show (r.devCount : ℚ) / ((r.devCount : ℚ) - 2) = 2
    rw [h]; norm_num
  · unfold calcRatio
    split <;> simp_all

/-- Witness for C2 at device counts 3 and 4 and at an unknown layout
name. -/
theorem calcRatio_table_witness :
    calcRatio ⟨"", none, 3⟩ "raid5" = 3 / 2 ∧
    calcRatio ⟨"", none, 4⟩ "raid6" = 2 ∧
    calcRatio ⟨"", none, 2⟩ "raid1c3" = 0 :=
  ⟨(calcRatio_table ⟨"", none, 3⟩).2.2.2.2.2.2.1 rfl,
   (calcRatio_table ⟨"", none, 4⟩).2.2.2.2.2.2.2.2.1 rfl,
   (calcRatio_table ⟨"", none, 2⟩).2.2.2.2.2.2.2.2.2 "raid1c3" (by decide)⟩

/-- The entry-name order is total. -/
theorem lexLe_total : ∀ a b : List Char, lexLe a b = true ∨ lexLe b a = true
  | [], _ => Or.inl rfl
  | _ :: _, [] => Or.inr rfl
  | c :: cs, d :: ds => by
    rcases Nat.lt_trichotomy c.toNat d.toNat with h | h | h
    · left; simp [lexLe, h]
    · rcases lexLe_total cs ds with ih | ih
      · left; simp [lexLe, h, Nat.lt_irrefl, ih]
      · right; simp [lexLe, h.symm, Nat.lt_irrefl, ih]
    · right; simp [lexLe, h]

/-- The entry-name order is transitive. -/
theorem lexLe_trans : ∀ a b c : List Char,
    lexLe a b = true → lexLe b c = true → lexLe a c = true
  | [], _, _ => fun _ _ => rfl
  | _ :: _, [], _ => by intro hab; simp [lexLe] at hab
  | _ :: _, _ :: _, [] => by intro _ hbc; simp [lexLe] at hbc
  | x :: xs, y :: ys, z :: zs => by
    intro hab hbc
    rcases Nat.lt_trichotomy x.toNat y.toNat with hxy | hxy | hxy
    · rcases Nat.lt_trichotomy y.toNat z.toNat with hyz | hyz | hyz
      · simp [lexLe, Nat.lt_trans hxy hyz]
      · simp [lexLe, hyz ▸ hxy]
      · simp [lexLe, hyz, Nat.lt_asymm hyz, Nat.lt_irrefl] at hbc
    · rcases Nat.lt_trichotomy y.toNat z.toNat with hyz | hyz | hyz
      · simp [lexLe, hxy ▸ hyz]
      · have hxz : x.toNat = z.toNat := hxy.trans hyz
        simp only [lexLe, hxy, hyz, Nat.lt_irrefl, if_false] at hab hbc
        simp only [lexLe, hxz, Nat.lt_irrefl, if_false]
        exact lexLe_trans xs ys zs hab hbc
      · simp [lexLe, hyz, Nat.lt_asymm hyz, Nat.lt_irrefl] at hbc
    · simp [lexLe, hxy, Nat.lt_asymm hxy, Nat.lt_irrefl] at hab

instance : IsTotal String nameLe :=
  ⟨fun a b => lexLe_total a.data b.data⟩

instance : IsTrans String nameLe :=
  ⟨fun a b c hab hbc => lexLe_trans a.data b.data c.data hab hbc⟩

/-- C10: the directory-listing operation returns child names sorted in
ascending code-point-lexicographic order (the order `ioutil.ReadDir`
guarantees), for every directory it lists (on a failed listing the
empty list is trivially sorted); in particular the `Features` list of
every assembled `Stats` is sorted. -/
theorem listFiles_sorted :
    (∀ (fs : SimFS) (r : Reader) (p : String), List.Sorted nameLe (listFiles fs r p).1) ∧
    (∀ (fs : SimFS) (r : Reader), List.Sorted nameLe ((readFilesystemStats fs r).1.Features)) := by
  have base : ∀ (fs : SimFS) (r : Reader) (p : String),
      List.Sorted nameLe (listFiles fs r p).1 := by
    intro fs r p
    unfold listFiles
    cases fs.readDirRaw (pathJoin r.path p) with
    | ok names => exact List.sorted_insertionSort nameLe names
    | error e => exact List.sorted_nil
  exact ⟨base, fun fs r => base fs _ "features"⟩

/-- C7: if a layout's subdirectory does not exist (stat yields
not-found), the evaluator returns nil and the reader is completely
unchanged (no error recorded); and whenever the evaluator returns a
`LayoutUsage`, the stat of the backing subdirectory succeeded. -/
theorem readLayout_existence (fs : SimFS) (r : Reader) (p : String) :
    (fs.stat (pathJoin r.path p) = .error .notFound → readLayout fs r p = (none, r)) ∧
    ((readLayout fs r p).1.isSome = true → fs.stat (pathJoin r.path p) = .ok ()) := by
  constructor
  · intro h
    unfold readLayout existsP
    rw [h]
    rfl
  · intro h
    unfold readLayout existsP at h
    cases hstat : fs.stat (pathJoin r.path p) with
    | ok u => cases u; rfl
    | error e => rw [hstat] at h; cases e <;> simp at h

/-- Witness for C7 on the scalar fixture, where no directory exists. -/
theorem readLayout_existence_witness :
    readLayout fsScalar ⟨"r", none, 0⟩ "single" = (none, ⟨"r", none, 0⟩) :=
  (readLayout_existence fsScalar ⟨"r", none, 0⟩ "single").1 rfl

/-- The healthy fixture with permission denied on the stat of the data
class's `single` layout subdirectory. -/
def fsLayoutDenied : SimFS := tableFS goodFiles goodDirs ["root/allocation/data/single"]

set_option maxRecDepth 10000 in
/-- C9: a stat failure other than not-found on a layout subdirectory is
latched as the reader's error while the existence check returns false,
so the evaluator omits the layout; on the concrete denied fixture the
whole volume read consequently surfaces that error while the returned
stats carry the data class with its `single` layout omitted. -/
theorem existsP_latches_stat_error (fs : SimFS) (r : Reader) (p : String)
    (h : fs.stat (pathJoin r.path p) = .error .permissionDenied) :
    existsP fs r p = (false, { r with err := some (.fsErr .permissionDenied) }) ∧
    readLayout fs r p = (none, { r with err := some (.fsErr .permissionDenied) }) ∧
    (GetStats fsLayoutDenied "root").2 = some (.fsErr .permissionDenied) ∧
    ((GetStats fsLayoutDenied "root").1.map
      (fun s => s.Allocation.Data.map (fun a => a.Single.isSome))) = some (some false) := by
  have h1 : existsP fs r p = (false, { r with err := some (.fsErr .permissionDenied) }) := by
    unfold existsP
    rw [h]
  refine ⟨h1, ?_, by decide, by decide⟩
  unfold readLayout
  rw [h1]
  rfl

/-- Witness for C9 at the denied fixture's data-class sub-reader. -/
theorem existsP_latches_stat_error_witness :
    existsP fsLayoutDenied ⟨"root/allocation/data", none, 2⟩ "single"
      = (false, ⟨"root/allocation/data", some (.fsErr .permissionDenied), 2⟩) ∧
    readLayout fsLayoutDenied ⟨"root/allocation/data", none, 2⟩ "single"
      = (none, ⟨"root/allocation/data", some (.fsErr .permissionDenied), 2⟩) := by
  have inst := existsP_latches_stat_error fsLayoutDenied
    ⟨"root/allocation/data", none, 2⟩ "single" rfl
  exact ⟨inst.1, inst.2.1⟩

/-- Empty filesystem with a permission-denied `features` directory,
for the error-replacement counterexample. -/
def fsDirDenied : SimFS := tableFS [] [] ["root/features"]

/-- C6 counterexample: with an I/O error already latched, `listFiles`
still accesses the filesystem and a permission failure there REPLACES
the latched error, contradicting the claim that every read step after a
latched fatal error is a no-op and that no later error replaces the
first. -/
theorem listFiles_replaces_latched_error :
    (listFiles fsDirDenied ⟨"root", some (.fsErr .ioError), 0⟩ "features").2.err
      = some (.fsErr .permissionDenied) ∧
    some (RError.fsErr .permissionDenied) ≠ some (RError.fsErr .ioError) :=
  ⟨by decide, by decide⟩

/-- C6 (amended): a latched fatal error short-circuits `readValue`,
`readDeviceInfo` and `readAllocationStats`, each a no-op returning its
zero value with the reader untouched; but `readFile`, `listFiles` and
`exists` do not consult the latched error — they still access the
filesystem, and a failure there overwrites the latched error, so the
error finally surfaced is the most recent fatal failure among those
calls, not necessarily the first. -/
theorem latched_error_short_circuits (fs : SimFS) (r : Reader) (n : String) (e : RError)
    (h : r.err = some e) :
    readValue fs r n = (0, r) ∧
    readDeviceInfo fs r n = ([], r) ∧
    readAllocationStats fs r n = (none, r) := by
  have hs : r.err.isSome = true := by rw [h]; rfl
  refine ⟨?_, ?_, ?_⟩
  · unfold readValue; rw [if_pos hs]
  · unfold readDeviceInfo; rw [if_pos hs]
  · unfold readAllocationStats; rw [if_pos hs]

/-- Witness for C6's amended theorem with a latched I/O error. -/
theorem latched_error_short_circuits_witness :
    readValue fsScalar ⟨"r", some (.fsErr .ioError), 0⟩ "good"
      = (0, ⟨"r", some (.fsErr .ioError), 0⟩) ∧
    readDeviceInfo fsScalar ⟨"r", some (.fsErr .ioError), 0⟩ "good"
      = ([], ⟨"r", some (.fsErr .ioError), 0⟩) ∧
    readAllocationStats fsScalar ⟨"r", some (.fsErr .ioError), 0⟩ "good"
      = (none, ⟨"r", some (.fsErr .ioError), 0⟩) :=
  latched_error_short_circuits fsScalar ⟨"r", some (.fsErr .ioError), 0⟩ "good"
    (.fsErr .ioError) rfl

/-- The healthy fixture with permission denied on one scalar file of
the data allocation class. -/
def fsFileDenied : SimFS := tableFS goodFiles goodDirs ["root/allocation/data/bytes_may_use"]

set_option maxRecDepth 10000 in
/-- C3 counterexample: on a volume whose only defect is a
permission-denied scalar inside the data class, `GetStats` surfaces the
fatal error AND returns a partially populated stats object alongside it
(label and device map already filled in), contradicting the claim that
no partial `VolumeStats` is returned with the error. -/
theorem getStats_partial_alongside_error :
    (GetStats fsFileDenied "root").2 = some (.fsErr .permissionDenied) ∧
    (GetStats fsFileDenied "root").1.map Stats.Label = some "fixture" ∧
    (GetStats fsFileDenied "root").1.map (fun s => s.Devices.length) = some 2 :=
  ⟨by decide, by decide, by decide⟩

/-- C3 (amended): `GetStats` surfaces a single error value, but it
always returns a (possibly partially populated) stats object alongside
it — the Go function returns a never-nil `*Stats` together with
`r.err`; the caller is expected to consult the error and discard the
object. -/
theorem getStats_error_still_returns_stats (fs : SimFS) (uuidPath : String) (e : RError)
    (h : (GetStats fs uuidPath).2 = some e) :
    (GetStats fs uuidPath).1.isSome = true := rfl

set_option maxRecDepth 10000 in
/-- Witness for C3's amended theorem at the denied fixture. -/
theorem getStats_error_still_returns_stats_witness :
    (GetStats fsFileDenied "root").1.isSome = true :=
  getStats_error_still_returns_stats fsFileDenied "root" (.fsErr .permissionDenied) (by decide)

/-- Data-class fixture containing an unrecognized layout subdirectory
(`raid1c3`) with fully readable counters, besides a `single` layout. -/
def fsUnknownA : SimFS :=
  tableFS
    [("root/allocation/data/bytes_may_use", "0\n"),
     ("root/allocation/data/bytes_pinned", "0\n"),
     ("root/allocation/data/bytes_readonly", "0\n"),
     ("root/allocation/data/bytes_reserved", "0\n"),
     ("root/allocation/data/bytes_used", "1024\n"),
     ("root/allocation/data/disk_used", "1024\n"),
     ("root/allocation/data/disk_total", "4096\n"),
     ("root/allocation/data/flags", "1\n"),
     ("root/allocation/data/total_bytes", "4096\n"),
     ("root/allocation/data/total_bytes_pinned", "0\n"),
     ("root/allocation/data/single/total_bytes", "4096\n"),
     ("root/allocation/data/single/used_bytes", "1024\n"),
     ("root/allocation/data/raid1c3/total_bytes", "8192\n"),
     ("root/allocation/data/raid1c3/used_bytes", "2048\n")]
    [("root/allocation/data", ["single", "raid1c3"]),
     ("root/allocation/data/single", ["total_bytes", "used_bytes"]),
     ("root/allocation/data/raid1c3", ["total_bytes", "used_bytes"])]
    []

/-- The same fixture with the `raid1c3` subdirectory and its files
entirely absent. -/
def fsUnknownB : SimFS :=
  tableFS
    [("root/allocation/data/bytes_may_use", "0\n"),
     ("root/allocation/data/bytes_pinned", "0\n"),
     ("root/allocation/data/bytes_readonly", "0\n"),
     ("root/allocation/data/bytes_reserved", "0\n"),
     ("root/allocation/data/bytes_used", "1024\n"),
     ("root/allocation/data/disk_used", "1024\n"),
     ("root/allocation/data/disk_total", "4096\n"),
     ("root/allocation/data/flags", "1\n"),
     ("root/allocation/data/total_bytes", "4096\n"),
     ("root/allocation/data/total_bytes_pinned", "0\n"),
     ("root/allocation/data/single/total_bytes", "4096\n"),
     ("root/allocation/data/single/used_bytes", "1024\n")]
    [("root/allocation/data", ["single"]),
     ("root/allocation/data/single", ["total_bytes", "used_bytes"])]
    []

/-- C4 counterexample: the aggregator never lists the class directory —
it probes a fixed set of seven layout names. A present, fully readable
subdirectory with the unknown name `raid1c3` produces no entry: the
aggregation result is bit-identical with and without it. -/
theorem readAllocationStats_ignores_unknown_layout :
    readAllocationStats fsUnknownA ⟨"root", none, 2⟩ "allocation/data"
      = readAllocationStats fsUnknownB ⟨"root", none, 2⟩ "allocation/data" ∧
    (readAllocationStats fsUnknownA ⟨"root", none, 2⟩ "allocation/data").2.err = none ∧
    fsUnknownA.stat "root/allocation/data/raid1c3" = .ok () ∧
    fsUnknownB.stat "root/allocation/data/raid1c3" = .error .notFound :=
  ⟨by decide, by decide, rfl, rfl⟩

/-- Presence of the evaluator's result tracks exactly the stat of the
layout's subdirectory, whatever the reader's current error state. -/
theorem readLayout_isSome (fs : SimFS) (r : Reader) (p : String) :
    (readLayout fs r p).1.isSome = isOkB (fs.stat (pathJoin r.path p)) := by
  unfold readLayout existsP isOkB
  cases fs.stat (pathJoin r.path p) with
  | ok u => rfl
  | error e => cases e <;> rfl

/-- C4 (amended): for a clean reader, the aggregator returns a result
probing exactly the seven known layout names — a layout field is
populated precisely when the stat of the correspondingly named
subdirectory of the class directory succeeds; subdirectories with any
other name are never examined and produce no entry. -/
theorem readAllocationStats_probes_fixed_layouts (fs : SimFS) (r : Reader) (d : String)
    (h : r.err = none) :
    ∃ a, (readAllocationStats fs r d).1 = some a ∧
      a.Single.isSome = isOkB (fs.stat (pathJoin (pathJoin r.path d) "single")) ∧
      a.Dup.isSome = isOkB (fs.stat (pathJoin (pathJoin r.path d) "dup")) ∧
      a.Raid0.isSome = isOkB (fs.stat (pathJoin (pathJoin r.path d) "raid0")) ∧
      a.Raid1.isSome = isOkB (fs.stat (pathJoin (pathJoin r.path d) "raid1")) ∧
      a.Raid5.isSome = isOkB (fs.stat (pathJoin (pathJoin r.path d) "raid5")) ∧
      a.Raid6.isSome = isOkB (fs.stat (pathJoin (pathJoin r.path d) "raid6")) ∧
      a.Raid10.isSome = isOkB (fs.stat (pathJoin (pathJoin r.path d) "raid10")) := by
  have hs : r.err.isSome = false := by rw [h]; rfl
  unfold readAllocationStats
  simp only [hs, Bool.false_eq_true, if_false]
  refine ⟨_, rfl, ?_, ?_, ?_, ?_, ?_, ?_, ?_⟩ <;>
    · rw [readLayout_isSome]
      simp only [readValue_path, readLayout_path]

/-- Witness for C4's amended theorem on the unknown-layout fixture. -/
theorem readAllocationStats_probes_fixed_layouts_witness :
    (readAllocationStats fsUnknownA ⟨"root", none, 2⟩ "allocation/data").1.isSome = true ∧
    ((readAllocationStats fsUnknownA ⟨"root", none, 2⟩ "allocation/data").1.map
      (fun a => a.Single.isSome)) = some (isOkB (fsUnknownA.stat "root/allocation/data/single")) := by
  obtain ⟨a, ha, h1, _⟩ :=
    readAllocationStats_probes_fixed_layouts fsUnknownA ⟨"root", none, 2⟩ "allocation/data" rfl
  rw [ha]
  exact ⟨rfl, congrArg some h1⟩

theorem lookupDev_devInsert_self (m : List (String × Device)) (k : String) (v : Device) :
    lookupDev (devInsert m k v) k = some v := by
  induction m with
  | nil => simp [devInsert, lookupDev]
  | cons kv t ih =>
    by_cases hk : kv.1 = k
    · simp [devInsert, hk, lookupDev]
    · simp [devInsert, hk, lookupDev, ih]

theorem lookupDev_devInsert_ne (m : List (String × Device)) {k q : String}
    (h : k ≠ q) (v : Device) :
    lookupDev (devInsert m k v) q = lookupDev m q := by
  induction m with
  | nil => simp [devInsert, lookupDev, h]
  | cons kv t ih =>
    by_cases hk : kv.1 = k
    · simp [devInsert, hk, lookupDev, h]
    · simp [devInsert, hk, lookupDev, ih]

theorem lookupDev_foldl_not_mem (f : String → Device) :
    ∀ (l : List String) (m : List (String × Device)) (n : String), n ∉ l →
    lookupDev (l.foldl (fun m k => devInsert m k (f k)) m) n = lookupDev m n := by
  intro l
  induction l with
  | nil => intro m n _; rfl
  | cons k t ih =>
    intro m n h
    rw [List.foldl_cons, ih _ n (fun hx => h (List.mem_cons_of_mem _ hx)),
      lookupDev_devInsert_ne _ (fun hk => h (List.mem_cons.mpr (Or.inl hk.symm))) _]

theorem lookupDev_foldl_mem (f : String → Device) :
    ∀ (l : List String) (m : List (String × Device)) (n : String), n ∈ l → l.Nodup →
    lookupDev (l.foldl (fun m k => devInsert m k (f k)) m) n = some (f n) := by
  intro l
  induction l with
  | nil => intro m n h _; cases h
  | cons k t ih =>
    intro m n hmem hnd
    rw [List.foldl_cons]
    rcases List.mem_cons.mp hmem with rfl | hmem2
    · rw [lookupDev_foldl_not_mem f t _ n (List.nodup_cons.mp hnd).1,
        lookupDev_devInsert_self]
    · exact ih _ n hmem2 (List.nodup_cons.mp hnd).2

/-- With every per-device size read succeeding on a clean reader, the
device fold is the pure fold of `devInsert`s of the computed byte
sizes, and the reader comes back unchanged. -/
theorem readDeviceInfo_foldl (fs : SimFS) (r : Reader) :
    ∀ (l : List String) (m : List (String × Device)),
    (∀ n ∈ l, (readValue fs r ("devices/" ++ n ++ "/size")).2 = r) →
    l.foldl (fun acc n =>
        let sz := readValue fs acc.2 ("devices/" ++ n ++ "/size")
        (devInsert acc.1 n ⟨512 * sz.1 % 2 ^ 64⟩, sz.2)) (m, r)
      = (l.foldl (fun m n =>
          devInsert m n ⟨512 * (readValue fs r ("devices/" ++ n ++ "/size")).1 % 2 ^ 64⟩) m,
         r) := by
  intro l
  induction l with
  | nil => intro m _; rfl
  | cons k t ih =>
    intro m h
    rw [List.foldl_cons, List.foldl_cons]
    dsimp only
    rw [h k (List.mem_cons_self k t)]
    exact ih _ (fun n hn => h n (List.mem_cons_of_mem _ hn))

/-- C8: for every device entry enumerated under `devices/` (raw listing
`raw`, pairwise distinct, each `size` file readable and cleanly
parsing), the reported byte size is 512 times the parsed sector count
of that entry's `size` file (in `uint64` arithmetic). -/
theorem readDeviceInfo_sizes (fs : SimFS) (r : Reader) (raw : List String)
    (h : r.err = none)
    (hdir : fs.readDirRaw (pathJoin r.path "devices") = .ok raw)
    (hnd : raw.Nodup)
    (hok : ∀ n ∈ raw, ∃ c, fs.readF (pathJoin r.path ("devices/" ++ n ++ "/size")) = .ok c
      ∧ (parseUint64 (trimSpace c)).2 = none) :
    ∀ n ∈ raw, ∀ c, fs.readF (pathJoin r.path ("devices/" ++ n ++ "/size")) = .ok c →
      lookupDev (readDeviceInfo fs r "devices").1 n
        = some ⟨512 * (parseUint64 (trimSpace c)).1 % 2 ^ 64⟩ := by
  intro n hmem c hc
  have hval : ∀ m ∈ raw, (readValue fs r ("devices/" ++ m ++ "/size")).2 = r := by
    intro m hm
    obtain ⟨cm, hcm, hpm⟩ := hok m hm
    rw [readValue_ok h hcm hpm]
  have hs : r.err.isSome = false := by rw [h]; rfl
  have hperm := List.perm_insertionSort nameLe raw
  unfold readDeviceInfo
  simp only [hs, Bool.false_eq_true, if_false]
  unfold listFiles
  rw [hdir]
  dsimp only
  rw [readDeviceInfo_foldl fs r _ [] (fun m hm => hval m (hperm.mem_iff.mp hm))]
  dsimp only
  rw [lookupDev_foldl_mem _ _ _ n (hperm.mem_iff.mpr hmem) (hperm.nodup_iff.mpr hnd)]
  obtain ⟨cm, hcm, hpm⟩ := hok n hmem
  have hcc : c = cm := by
    have := hc.symm.trans hcm
    exact Except.ok.inj this
  rw [readValue_ok h hcm hpm, hcc]

/-- Witness for C8 on the healthy fixture: entries sda (4194304
sectors) and sdb (2097152 sectors) report 2147483648 and 1073741824
bytes. -/
theorem readDeviceInfo_sizes_witness :
    lookupDev (readDeviceInfo fsGood ⟨"root", none, 0⟩ "devices").1 "sda"
      = some ⟨2147483648⟩ ∧
    lookupDev (readDeviceInfo fsGood ⟨"root", none, 0⟩ "devices").1 "sdb"
      = some ⟨1073741824⟩ := by
  have hok : ∀ n ∈ ["sdb", "sda"],
      ∃ c, fsGood.readF (pathJoin "root" ("devices/" ++ n ++ "/size")) = .ok c
        ∧ (parseUint64 (trimSpace c)).2 = none := by
    intro n hn
    rcases List.mem_cons.mp hn with rfl | hn2
    · exact ⟨"2097152\n", rfl, by decide⟩
    · rcases List.mem_cons.mp hn2 with rfl | hn3
      · exact ⟨"4194304\n", rfl, by decide⟩
      · cases hn3
  have hmain := readDeviceInfo_sizes fsGood ⟨"root", none, 0⟩ ["sdb", "sda"]
    rfl rfl (by decide) hok
  constructor
  · rw [hmain "sda" (by decide) "4194304\n" rfl]
    decide
  · rw [hmain "sdb" (by decide) "2097152\n" rfl]
    decide

/-- A layout record produced by the evaluator carries the ratio for its
layout name at the evaluating reader's device count. -/
theorem readLayout_ratio (fs : SimFS) (r : Reader) (q : String) (lu : LayoutUsage)
    (h : (readLayout fs r q).1 = some lu) :
    lu.Ratio = calcRatioAt q r.devCount := by
  unfold readLayout at h
  dsimp only at h
  split at h
  · dsimp only at h
    have h2 := Option.some.inj h
    subst h2
    unfold calcRatioAt
    exact calcRatio_congr (by simp only [readValue_devCount, existsP_devCount]) q
  · dsimp only at h
    simp at h

/-- Every layout record inside an aggregation result carries the ratio
computed at the aggregating reader's device count. -/
theorem readAllocationStats_ratios (fs : SimFS) (r : Reader) (d : String)
    (a : AllocationStats) (h : (readAllocationStats fs r d).1 = some a) :
    layoutsRatioEq a r.devCount := by
  unfold readAllocationStats at h
  split at h
  · dsimp only at h
    simp at h
  · dsimp only at h
    have h2 := Option.some.inj h
    subst h2
    refine ⟨?_, ?_, ?_, ?_, ?_, ?_, ?_⟩ <;>
    · intro lu hlu
      rw [Option.mem_def] at hlu
      rw [readLayout_ratio fs _ _ lu hlu]
      unfold calcRatioAt
      exact calcRatio_congr (by simp only [readLayout_devCount, readValue_devCount]) _

/-- C5: for every volume read started on a fresh reader, the device
count used by every layout-ratio computation — in each of the three
allocation classes — equals the number of entries returned by that same
volume's device enumeration (`readDeviceInfo` runs first in
`readFilesystemStats` and its length is captured before any allocation
class is read). -/
theorem ratios_use_snapshot_devCount (fs : SimFS) (p : String) (a : AllocationStats) :
    ((readFilesystemStats fs ⟨p, none, 0⟩).1.Allocation.Data = some a →
      layoutsRatioEq a (devEnumCount fs p)) ∧
    ((readFilesystemStats fs ⟨p, none, 0⟩).1.Allocation.Metadata = some a →
      layoutsRatioEq a (devEnumCount fs p)) ∧
    ((readFilesystemStats fs ⟨p, none, 0⟩).1.Allocation.System = some a →
      layoutsRatioEq a (devEnumCount fs p)) := by
  refine ⟨fun h => ?_, fun h => ?_, fun h => ?_⟩ <;>
  · unfold readFilesystemStats at h
    dsimp only at h
    have hr := readAllocationStats_ratios fs _ _ a h
    simp only [readAllocationStats_devCount, readValue_devCount, listFiles_devCount,
      readFile_devCount] at hr
    exact hr

set_option maxRecDepth 10000 in
/-- Witness for C5 on the healthy fixture: its data class satisfies the
ratio/device-count relation at that volume's device enumeration count. -/
theorem ratios_use_snapshot_devCount_witness :
    layoutsRatioEq
      (((readFilesystemStats fsGood ⟨"root", none, 0⟩).1.Allocation.Data).getD allocZero)
      (devEnumCount fsGood "root") :=
  (ratios_use_snapshot_devCount fsGood "root"
    (((readFilesystemStats fsGood ⟨"root", none, 0⟩).1.Allocation.Data).getD allocZero)).1
    (by decide)
